import Mathlib

/-!
Shallow embedding of the regtest register-expectation harness
(src/regtest.h and the exploratory variant src/experiment.cpp).

Conventions of the embedding:
* `uint32_t` values are modelled as `Nat`.  The code performs no arithmetic
  on register values, only equality comparison, so the embedding is exact;
  the C expression `(uint32_t) -1` is the concrete constant 4294967295.
* A C++ pointer `const volatile uint32_t*` (the identity of a register
  cell) is modelled as a `Nat` address.  The code only compares pointers
  for equality.
* The global `std::queue<ROp> ropq` is modelled by explicit state passing:
  a `List ROp` whose head is the front of the queue; `emplace` appends at
  the end, `pop` drops the head.
* `printf` + `raise(SIGINT)` on a mismatch is modelled as an
  `Option Violation` carrying exactly the data the diagnostic message
  prints; execution continues after `raise` in the source (the function
  still returns), and the embedding mirrors that by returning the final
  queue, cell and return value alongside the violation.
-/

namespace Regtest

/-- One expected register operation (struct `ROp`, src/regtest.h lines
129-135): the address of the register, the value (expected from a write or
supplied to a read), and the direction flag `write`. -/
structure ROp where
  adr : Nat
  val : Nat
  write : Bool
deriving DecidableEq, Repr

/-- The violations the library can report, one constructor per distinct
diagnostic message in the source, carrying exactly the data the
corresponding `printf` call prints.
* `unexpectedWrite a v`: "Unexpected write of 0x%08x to address %p" with
  arguments `v` and `&this->v` (src/regtest.h line 176).
* `wrongWriteValue a v`: "Unexpected value 0x%08x of write to address %p"
  with arguments `v` (the actual written value) and `&this->v`
  (src/regtest.h line 180); the expected value from the queue entry is not
  among the printf arguments.
* `unexpectedRead a`: "Unexpected read at address %p" with argument
  `&this->v` (src/regtest.h line 200).
* `leftover`: "Expected register operation(s) did not occur."
  (src/regtest.h line 152). -/
inductive Violation where
  | unexpectedWrite (adr : Nat) (val : Nat)
  | wrongWriteValue (adr : Nat) (actual : Nat)
  | unexpectedRead (adr : Nat)
  | leftover
deriving DecidableEq, Repr

/-- `void expect_read(const volatile uint32_t* adr, uint32_t val)`
(src/regtest.h lines 142-144): enqueue `ROp(adr, val, false)`. -/
def expect_read (ropq : List ROp) (adr : Nat) (val : Nat) : List ROp :=
  ropq ++ [⟨adr, val, false⟩]

/-- `void expect_write(const volatile uint32_t* adr, uint32_t val)`
(src/regtest.h lines 146-148): enqueue `ROp(adr, val, true)`. -/
def expect_write (ropq : List ROp) (adr : Nat) (val : Nat) : List ROp :=
  ropq ++ [⟨adr, val, true⟩]

/-- Result of `int expect_rest()`: the queue afterwards, the violation
reported (if any), and the `int` return code. -/
structure RestResult where
  ropq : List ROp
  viol : Option Violation
  ret : Nat
deriving DecidableEq, Repr

/-- `int expect_rest()` (src/regtest.h lines 150-157): if the queue is
non-empty, print the leftover diagnostic, raise SIGINT and return 1;
otherwise return 0.  The queue itself is not modified in either case. -/
def expect_rest (ropq : List ROp) : RestResult :=
  if !ropq.isEmpty then
    { ropq := ropq, viol := some .leftover, ret := 1 }
  else
    { ropq := ropq, viol := none, ret := 0 }

/-- The `Reg32` cell: one `uint32_t` of backing storage `v`, plus the
memory address `adr` at which that storage lives (in C++ this is the
extrinsic location `&this->v`; member functions cannot relocate the
object, so it is carried as a field the operations never change). -/
structure Reg32 where
  adr : Nat
  v : Nat
deriving DecidableEq, Repr

/-- `const volatile uint32_t* Reg32::operator&() const volatile`
(src/regtest.h lines 191-193): `return &this->v;`. -/
def Reg32.addrOf (r : Reg32) : Nat :=
  r.adr

/-- Result of an intercepted access: the queue afterwards, the cell
afterwards, the violation reported (if any), and the `uint32_t` value the
operator returns. -/
structure AccessResult where
  ropq : List ROp
  cell : Reg32
  viol : Option Violation
  ret : Nat
deriving DecidableEq, Repr

/-- `uint32_t Reg32::operator=(uint32_t v) volatile` of src/regtest.h
(lines 172-188): if the queue is empty, or the front is not a write, or
the front's address is not `&this->v`, report an unexpected write; else if
the front's value differs from `v`, report a wrong written value (without
popping); else pop the front.  Returns `v`; the backing storage is never
touched. -/
def Reg32.assign (ropq : List ROp) (r : Reg32) (v : Nat) : AccessResult :=
  match ropq with
  | [] =>
      { ropq := [], cell := r, viol := some (.unexpectedWrite r.adr v), ret := v }
  | front :: rest =>
      if front.write = false ∨ front.adr ≠ r.adr then
        { ropq := front :: rest, cell := r,
          viol := some (.unexpectedWrite r.adr v), ret := v }
      else if front.val ≠ v then
        { ropq := front :: rest, cell := r,
          viol := some (.wrongWriteValue r.adr v), ret := v }
      else
        { ropq := rest, cell := r, viol := none, ret := v }

/-- `Reg32::operator uint32_t() volatile` of src/regtest.h (lines
195-207): `ret` starts as `(uint32_t) -1`; if the queue is empty, or the
front is a write, or the front's address is not `&this->v`, report an
unexpected read (leaving `ret` at the sentinel and the queue untouched);
else set `ret` to the front's value and pop.  The backing storage is never
read. -/
def Reg32.toU32 (ropq : List ROp) (r : Reg32) : AccessResult :=
  match ropq with
  | [] =>
      { ropq := [], cell := r, viol := some (.unexpectedRead r.adr), ret := 4294967295 }
  | front :: rest =>
      if front.write = true ∨ front.adr ≠ r.adr then
        { ropq := front :: rest, cell := r,
          viol := some (.unexpectedRead r.adr), ret := 4294967295 }
      else
        { ropq := rest, cell := r, viol := none, ret := front.val }

/-- `uint32_t Reg32::operator=(uint32_t v) volatile` of src/experiment.cpp
(lines 103-117): same queue checks and diagnostics as the src/regtest.h
variant, but the final statement is `return this->v = v;`, so the backing
storage is updated to `v` on every path, success or failure. -/
def Reg32.assignExp (ropq : List ROp) (r : Reg32) (v : Nat) : AccessResult :=
  match ropq with
  | [] =>
      { ropq := [], cell := { r with v := v },
        viol := some (.unexpectedWrite r.adr v), ret := v }
  | front :: rest =>
      if front.write = false ∨ front.adr ≠ r.adr then
        { ropq := front :: rest, cell := { r with v := v },
          viol := some (.unexpectedWrite r.adr v), ret := v }
      else if front.val ≠ v then
        { ropq := front :: rest, cell := { r with v := v },
          viol := some (.wrongWriteValue r.adr v), ret := v }
      else
        { ropq := rest, cell := { r with v := v }, viol := none, ret := v }

/-- `Reg32::operator uint32_t() volatile` of src/experiment.cpp (lines
123-135): textually the same algorithm as the src/regtest.h conversion
operator. -/
def Reg32.toU32Exp (ropq : List ROp) (r : Reg32) : AccessResult :=
  match ropq with
  | [] =>
      { ropq := [], cell := r, viol := some (.unexpectedRead r.adr), ret := 4294967295 }
  | front :: rest =>
      if front.write = true ∨ front.adr ≠ r.adr then
        { ropq := front :: rest, cell := r,
          viol := some (.unexpectedRead r.adr), ret := 4294967295 }
      else
        { ropq := rest, cell := r, viol := none, ret := front.val }

/-- An actual access performed by code under test: a read of a cell, or a
write of a value to a cell. -/
inductive Access where
  | rd (cell : Reg32)
  | wr (cell : Reg32) (v : Nat)
deriving DecidableEq, Repr

/-- One intercepted access against the queue (src/regtest.h variant),
projected to the data the expectation mechanism produces: the queue
afterwards and the violation, if any. -/
def step (ropq : List ROp) : Access → List ROp × Option Violation
  | .rd c => ((Reg32.toU32 ropq c).ropq, (Reg32.toU32 ropq c).viol)
  | .wr c v => ((Reg32.assign ropq c v).ropq, (Reg32.assign ropq c v).viol)

/-- Run a list of accesses in order, collecting every reported violation. -/
def run (ropq : List ROp) : List Access → List ROp × List Violation
  | [] => (ropq, [])
  | a :: rest =>
      let s := step ropq a
      let r := run s.1 rest
      (r.1, s.2.toList ++ r.2)

/-- Push a list of expectations in order with the declaration API:
`expect_write` for entries whose direction is write, `expect_read`
otherwise. -/
def pushAll (ropq : List ROp) (es : List ROp) : List ROp :=
  es.foldl (fun q e => if e.write then expect_write q e.adr e.val
                       else expect_read q e.adr e.val) ropq

/-- The actual access that matches an expectation `e`, performed on a cell
with identity `e.adr` holding arbitrary backing storage `w`: a write of
`e.val` if `e` is a write expectation, a read otherwise. -/
def matching (e : ROp) (w : Nat) : Access :=
  if e.write then .wr ⟨e.adr, w⟩ e.val else .rd ⟨e.adr, w⟩

theorem pushOne_eq_append (q : List ROp) (e : ROp) :
    (if e.write then expect_write q e.adr e.val
     else expect_read q e.adr e.val) = q ++ [e] := by
  cases e with
  | mk a v w => cases w <;> simp [expect_write, expect_read]

theorem pushAll_eq_append (q : List ROp) (es : List ROp) :
    pushAll q es = q ++ es := by
  induction es generalizing q with
  | nil => simp [pushAll]
  | cons e rest ih =>
      simp only [pushAll, List.foldl_cons] at *
      rw [pushOne_eq_append]
      rw [ih (q ++ [e])]
      simp

theorem step_matching (e : ROp) (rest : List ROp) (w : Nat) :
    step (e :: rest) (matching e w) = (rest, none) := by
  cases e with
  | mk a v dir =>
      cases dir <;>
        simp [matching, step, Reg32.toU32, Reg32.assign]

theorem run_matching (es : List ROp) (tail : List ROp) (w : ROp → Nat) :
    run (es ++ tail) (es.map fun e => matching e (w e)) = (tail, []) := by
  induction es with
  | nil => simp [run]
  | cons e rest ih =>
      simp only [List.map_cons, List.cons_append, run]
      rw [step_matching e (rest ++ tail) (w e)]
      simp [ih]

/-- C1 counterexample: writing 2 to the cell at address 5 while the front
entry expects Write(5, 1) reports the wrong-write-value violation but
leaves the entry on the queue: only the fully matching branch of
`Reg32::operator=` calls `ropq.pop()` (src/regtest.h line 184), so the
front entry is NOT consumed, contradicting the claim that it is popped. -/
theorem C1_counterexample :
    (Reg32.assign [⟨5, 1, true⟩] ⟨5, 0⟩ 2).viol
        = some (Violation.wrongWriteValue 5 2) ∧
    (Reg32.assign [⟨5, 1, true⟩] ⟨5, 0⟩ 2).ropq ≠ [] ∧
    (Reg32.assign [⟨5, 1, true⟩] ⟨5, 0⟩ 2).ropq = [⟨5, 1, true⟩] := by
  decide

/-- C1 (amended): for every write access to a cell whose front queue entry
matches in direction (Write) and address but whose expected value differs
from the written value, a wrong-write-value violation is reported and the
front queue entry is left pending on the queue (not consumed). -/
theorem C1_wrong_value_write (front : ROp) (rest : List ROp) (r : Reg32)
    (v : Nat) (hdir : front.write = true) (hadr : front.adr = r.adr)
    (hval : front.val ≠ v) :
    (Reg32.assign (front :: rest) r v).viol
        = some (Violation.wrongWriteValue r.adr v) ∧
    (Reg32.assign (front :: rest) r v).ropq = front :: rest := by
  simp [Reg32.assign, hdir, hadr, hval]

/-- C1 witness: the amended claim at the concrete input of the
counterexample. -/
theorem C1_wrong_value_write_witness :
    (Reg32.assign [⟨5, 1, true⟩] ⟨5, 0⟩ 2).viol
        = some (Violation.wrongWriteValue 5 2) ∧
    (Reg32.assign [⟨5, 1, true⟩] ⟨5, 0⟩ 2).ropq = [⟨5, 1, true⟩] :=
  C1_wrong_value_write ⟨5, 1, true⟩ [] ⟨5, 0⟩ 2 rfl rfl (by decide)

/-- C2: a read of cell `r` fails with `unexpectedRead r.adr` when the
queue is empty, or the front is a write expectation, or the front's
address differs from the cell's; otherwise the front is popped and its
stored value is returned as the read result. -/
theorem C2_read_semantics (ropq : List ROp) (r : Reg32) :
    ((ropq = [] ∨ ∃ front rest, ropq = front :: rest ∧
        (front.write = true ∨ front.adr ≠ r.adr)) →
      (Reg32.toU32 ropq r).viol = some (Violation.unexpectedRead r.adr)) ∧
    (∀ front rest, ropq = front :: rest → front.write = false →
        front.adr = r.adr →
      (Reg32.toU32 ropq r).viol = none ∧
      (Reg32.toU32 ropq r).ropq = rest ∧
      (Reg32.toU32 ropq r).ret = front.val) := by
  constructor
  · rintro (rfl | ⟨front, rest, rfl, hbad⟩)
    · simp [Reg32.toU32]
    · simp [Reg32.toU32, hbad]
  · rintro front rest rfl hdir hadr
    simp [Reg32.toU32, hdir, hadr]

/-- C2 witness: an expected Write at address 5 followed by an actual read
of the cell at 5 yields the unexpected-read violation; an expected
Read(5, 7) followed by an actual read of that cell returns 7. -/
theorem C2_read_semantics_witness :
    (Reg32.toU32 [⟨5, 7, true⟩] ⟨5, 0⟩).viol
        = some (Violation.unexpectedRead 5) ∧
    (Reg32.toU32 [⟨5, 7, false⟩] ⟨5, 0⟩).ret = 7 := by
  constructor
  · exact (C2_read_semantics [⟨5, 7, true⟩] ⟨5, 0⟩).1
      (Or.inr ⟨⟨5, 7, true⟩, [], rfl, Or.inl rfl⟩)
  · exact ((C2_read_semantics [⟨5, 7, false⟩] ⟨5, 0⟩).2
      ⟨5, 7, false⟩ [] rfl rfl rfl).2.2

/-- C3 counterexample: the wrong-write-value report does not carry the
expected value.  Writing 2 against a front entry expecting Write(5, 1)
and writing 2 against a front entry expecting Write(5, 3) produce
literally the same violation value (the source prints only the actual
value and the address: src/regtest.h lines 180-181), so the report cannot
carry the expected value, contradicting the claim that the violation
carries expected and actual values. -/
theorem C3_counterexample :
    (Reg32.assign [⟨5, 1, true⟩] ⟨5, 0⟩ 2).viol
        = (Reg32.assign [⟨5, 3, true⟩] ⟨5, 0⟩ 2).viol ∧
    (Reg32.assign [⟨5, 1, true⟩] ⟨5, 0⟩ 2).viol
        = some (Violation.wrongWriteValue 5 2) := by
  decide

/-- C3 (amended): for every write of value `v` to cell `r`, the two
failure cases are distinguished: if the queue is empty, or the front's
direction is not Write, or the front's address differs from the cell's,
the failure reported is `unexpectedWrite r.adr v`; if instead direction
and address match but the front's value differs from `v`, the failure
reported is the distinct `wrongWriteValue` violation carrying the address
and the actual value (the expected value is not part of the report); the
two violation kinds are never equal. -/
theorem C3_write_failure_cases (ropq : List ROp) (r : Reg32) (v : Nat) :
    ((ropq = [] ∨ ∃ front rest, ropq = front :: rest ∧
        (front.write = false ∨ front.adr ≠ r.adr)) →
      (Reg32.assign ropq r v).viol = some (Violation.unexpectedWrite r.adr v)) ∧
    (∀ front rest, ropq = front :: rest → front.write = true →
        front.adr = r.adr → front.val ≠ v →
      (Reg32.assign ropq r v).viol
          = some (Violation.wrongWriteValue r.adr v)) ∧
    (∀ a b c d : Nat,
      Violation.unexpectedWrite a b ≠ Violation.wrongWriteValue c d) := by
  refine ⟨?_, ?_, ?_⟩
  · rintro (rfl | ⟨front, rest, rfl, hbad⟩)
    · simp [Reg32.assign]
    · simp [Reg32.assign, hbad]
  · rintro front rest rfl hdir hadr hval
    simp [Reg32.assign, hdir, hadr, hval]
  · intro a b c d h
    cases h

/-- C3 witness: the amended claim at concrete inputs: an empty queue gives
the unexpected-write report, a matching front with a different value gives
the wrong-write-value report. -/
theorem C3_write_failure_cases_witness :
    (Reg32.assign [] ⟨5, 0⟩ 2).viol = some (Violation.unexpectedWrite 5 2) ∧
    (Reg32.assign [⟨5, 1, true⟩] ⟨5, 0⟩ 2).viol
        = some (Violation.wrongWriteValue 5 2) := by
  constructor
  · exact (C3_write_failure_cases [] ⟨5, 0⟩ 2).1 (Or.inl rfl)
  · exact (C3_write_failure_cases [⟨5, 1, true⟩] ⟨5, 0⟩ 2).2.1
      ⟨5, 1, true⟩ [] rfl rfl rfl (by decide)

/-- C4: pushing any sequence `es` of expectations and performing the
matching actual accesses (same direction, address and value, on cells of
arbitrary backing storage) in the same order produces zero violations;
after the first `k` accesses the queue is exactly `es.drop k`, so each
access consumes exactly the front entry in strict FIFO insertion order,
and after all `es.length` accesses the queue is empty. -/
theorem C4_fifo_ordering (es : List ROp) (w : ROp → Nat) (k : Nat) :
    run (pushAll [] es) ((es.take k).map fun e => matching e (w e))
      = (es.drop k, []) := by
  have h := run_matching (es.take k) (es.drop k) w
  rw [List.take_append_drop] at h
  rw [pushAll_eq_append]
  simpa using h

/-- C5: `expect_rest()` returns 0 iff the queue is empty, reports the
leftover violation iff the queue is non-empty, never modifies the queue,
and after pushing a non-empty sequence of expectations and consuming all
but the last one (via matching accesses) it returns 1. -/
theorem C5_expect_rest (ropq : List ROp) (es : List ROp) (w : ROp → Nat) :
    ((expect_rest ropq).ret = 0 ↔ ropq = []) ∧
    ((expect_rest ropq).viol = some Violation.leftover ↔ ropq ≠ []) ∧
    (expect_rest ropq).ropq = ropq ∧
    (es ≠ [] →
      (expect_rest (run (pushAll [] es)
        ((es.take (es.length - 1)).map fun e => matching e (w e))).1).ret
          = 1) := by
  refine ⟨?_, ?_, ?_, ?_⟩
  · cases ropq <;> simp [expect_rest]
  · cases ropq <;> simp [expect_rest]
  · cases ropq <;> simp [expect_rest]
  · intro hne
    have h := run_matching (es.take (es.length - 1)) (es.drop (es.length - 1)) w
    rw [List.take_append_drop] at h
    rw [pushAll_eq_append, List.nil_append, h]
    have hlen : (es.drop (es.length - 1)).length = 1 := by
      rw [List.length_drop]
      have : 0 < es.length := List.length_pos.mpr hne
      omega
    have hd : es.drop (es.length - 1) ≠ [] := by
      intro hnil
      rw [hnil] at hlen
      simp at hlen
    simp [expect_rest, hd]

/-- C5 witness: `expect_rest` on the empty queue returns 0, on a non-empty
queue reports the leftover violation, and pushing the two expectations
Write(5, 1), Read(6, 2) while performing only the matching first access
makes it return 1. -/
theorem C5_expect_rest_witness :
    (expect_rest []).ret = 0 ∧
    (expect_rest [⟨5, 7, false⟩]).viol = some Violation.leftover ∧
    (expect_rest (run (pushAll [] [⟨5, 1, true⟩, ⟨6, 2, false⟩])
      (([(⟨5, 1, true⟩ : ROp), ⟨6, 2, false⟩].take 1).map
        fun e => matching e 0)).1).ret = 1 := by
  refine ⟨?_, ?_, ?_⟩
  · exact (C5_expect_rest [] [] fun _ => 0).1.mpr rfl
  · exact (C5_expect_rest [⟨5, 7, false⟩] [] fun _ => 0).2.1.mpr (by simp)
  · exact (C5_expect_rest [] [⟨5, 1, true⟩, ⟨6, 2, false⟩] fun _ => 0).2.2.2
      (by simp)

/-- C6: a front entry Read(a, V) makes the read of the cell at `a` observe
exactly V with no violation, whatever the cell's backing storage `w`; and
for every queue the result of a read (returned value, violation, queue
afterwards) is independent of the backing storage, in both the
src/regtest.h and the src/experiment.cpp variant: the backing storage is
never consulted by reads. -/
theorem C6_read_value_fidelity (ropq rest : List ROp) (a V w w' : Nat) :
    (Reg32.toU32 (⟨a, V, false⟩ :: rest) ⟨a, w⟩).ret = V ∧
    (Reg32.toU32 (⟨a, V, false⟩ :: rest) ⟨a, w⟩).viol = none ∧
    (Reg32.toU32 ropq ⟨a, w⟩).ret = (Reg32.toU32 ropq ⟨a, w'⟩).ret ∧
    (Reg32.toU32 ropq ⟨a, w⟩).viol = (Reg32.toU32 ropq ⟨a, w'⟩).viol ∧
    (Reg32.toU32 ropq ⟨a, w⟩).ropq = (Reg32.toU32 ropq ⟨a, w'⟩).ropq ∧
    (Reg32.toU32Exp ropq ⟨a, w⟩).ret = (Reg32.toU32Exp ropq ⟨a, w'⟩).ret ∧
    (Reg32.toU32Exp ropq ⟨a, w⟩).viol = (Reg32.toU32Exp ropq ⟨a, w'⟩).viol ∧
    (Reg32.toU32Exp ropq ⟨a, w⟩).ropq = (Reg32.toU32Exp ropq ⟨a, w'⟩).ropq := by
  refine ⟨by simp [Reg32.toU32], by simp [Reg32.toU32], ?_⟩
  cases ropq with
  | nil => simp [Reg32.toU32, Reg32.toU32Exp]
  | cons front rest =>
      by_cases h : front.write = true ∨ front.adr ≠ a <;>
        simp [Reg32.toU32, Reg32.toU32Exp, h]

/-- C7: taking the address of a cell yields its identity `adr`, and this
identity is unchanged by any read or write in either variant: accesses
consume only the queue, never the cell's identity. -/
theorem C7_identity_stable (ropq : List ROp) (r : Reg32) (v : Nat) :
    Reg32.addrOf r = r.adr ∧
    Reg32.addrOf (Reg32.assign ropq r v).cell = Reg32.addrOf r ∧
    Reg32.addrOf (Reg32.toU32 ropq r).cell = Reg32.addrOf r ∧
    Reg32.addrOf (Reg32.assignExp ropq r v).cell = Reg32.addrOf r ∧
    Reg32.addrOf (Reg32.toU32Exp ropq r).cell = Reg32.addrOf r := by
  refine ⟨rfl, ?_, ?_, ?_, ?_⟩ <;>
    (cases ropq with
     | nil =>
         simp [Reg32.assign, Reg32.toU32, Reg32.assignExp, Reg32.toU32Exp,
               Reg32.addrOf]
     | cons front rest =>
         simp only [Reg32.assign, Reg32.toU32, Reg32.assignExp,
                    Reg32.toU32Exp, Reg32.addrOf]
         split <;> first
           | rfl
           | (split <;> rfl))

/-- C8: a read that reports the unexpected-read violation (empty queue,
wrong direction or wrong address) returns the sentinel `(uint32_t) -1`
= 0xFFFFFFFF and leaves the queue unchanged. -/
theorem C8_failed_read (ropq : List ROp) (r : Reg32)
    (h : (Reg32.toU32 ropq r).viol = some (Violation.unexpectedRead r.adr)) :
    (Reg32.toU32 ropq r).ret = 4294967295 ∧
    (Reg32.toU32 ropq r).ropq = ropq := by
  cases ropq with
  | nil => simp [Reg32.toU32]
  | cons front rest =>
      by_cases hc : front.write = true ∨ front.adr ≠ r.adr
      · simp [Reg32.toU32, hc]
      · simp [Reg32.toU32, hc] at h

/-- C8 witness: a read of the cell at address 5 against the empty queue
returns 0xFFFFFFFF and leaves the queue empty. -/
theorem C8_failed_read_witness :
    (Reg32.toU32 [] ⟨5, 0⟩).ret = 4294967295 ∧
    (Reg32.toU32 [] ⟨5, 0⟩).ropq = [] :=
  C8_failed_read [] ⟨5, 0⟩ rfl

/-- C9: the src/regtest.h checked write never modifies the cell (its
backing word included), whether it succeeds or fails, and always returns
the value the caller attempted to write. -/
theorem C9_write_preserves_cell (ropq : List ROp) (r : Reg32) (v : Nat) :
    (Reg32.assign ropq r v).cell = r ∧
    (Reg32.assign ropq r v).ret = v := by
  cases ropq with
  | nil => simp [Reg32.assign]
  | cons front rest =>
      simp only [Reg32.assign]
      split
      · exact ⟨rfl, rfl⟩
      · split <;> exact ⟨rfl, rfl⟩

/-- C10: the two Reg32 variants are equivalent with respect to the
expectation queue: for every queue state and every access they produce the
same resulting queue, the same violation, and the same returned value
(the read operations are equal outright); they differ only in the backing
storage, which the src/experiment.cpp write sets to the written value
while the cell's identity is preserved. -/
theorem C10_variants_equivalent (ropq : List ROp) (r : Reg32) (v : Nat) :
    (Reg32.assignExp ropq r v).ropq = (Reg32.assign ropq r v).ropq ∧
    (Reg32.assignExp ropq r v).viol = (Reg32.assign ropq r v).viol ∧
    (Reg32.assignExp ropq r v).ret = (Reg32.assign ropq r v).ret ∧
    (Reg32.assignExp ropq r v).cell = { r with v := v } ∧
    Reg32.toU32Exp ropq r = Reg32.toU32 ropq r := by
  refine ⟨?_, ?_, ?_, ?_, ?_⟩ <;>
    (cases ropq with
     | nil => simp [Reg32.assign, Reg32.assignExp, Reg32.toU32, Reg32.toU32Exp]
     | cons front rest =>
         simp only [Reg32.assign, Reg32.assignExp, Reg32.toU32, Reg32.toU32Exp]
         try (split <;> first
               | rfl
               | (split <;> rfl)))

end Regtest
